import Mathlib

/-!
Shallow embedding of the devfreq core (drivers/devfreq/devfreq.c):
frequency-table bounds derivation, transition statistics, the
update_devfreq decision algorithm, and the sysfs governor / min_freq
write paths.  Frequencies and jiffies are `unsigned long` (64-bit);
transition counters are `unsigned int` (32-bit).  Machine arithmetic is
modelled on `Nat` with explicit `% 2^w` where the C code can wrap.
Driver and governor callbacks are injected as function parameters;
notifier fan-out is modelled as an event trace.
-/

namespace DevfreqModel

/-- Word modulus of `unsigned long` (64-bit). -/
def W64 : Nat := 2 ^ 64

/-- Word modulus of `unsigned int` (32-bit). -/
def W32 : Nat := 2 ^ 32

/-- `ULONG_MAX`. -/
def ULONG_MAX : Nat := W64 - 1

/-- A devfreq governor as seen by the core: its registry name and the
`immutable` flag.  (Governor-private state is irrelevant to the core.) -/
structure Governor where
  name : String
  immutable : Bool
deriving DecidableEq, Repr

/-- Governor lifecycle events (`DEVFREQ_GOV_*`). -/
inductive GovEvent where
  | start
  | stop
  | suspend
  | resume
  | interval
deriving DecidableEq, Repr

/-- The per-device state of `struct devfreq` that the verified operations
touch.  `freq_table` is `none` for a NULL table pointer and
`some tbl` for a populated table with `max_state = tbl.length`
(`some []` is a non-NULL pointer with `max_state == 0`). -/
structure Devfreq where
  freq_table : Option (List Nat)
  previous_freq : Nat
  min_freq : Nat
  max_freq : Nat
  time_in_state : List Nat
  trans_table : List Nat
  total_trans : Nat
  last_stat_updated : Nat
  max_boost : Bool
  is_boost_device : Bool
  governor : Option Governor
  governor_name : String
deriving DecidableEq, Repr

/-- `devfreq->profile->max_state`: the number of frequency levels. -/
def max_state (d : Devfreq) : Nat := (d.freq_table.getD []).length

/-- The linear search of `devfreq_get_freq_level` over one table:
first index whose entry equals `freq`, else `-EINVAL` (modelled `none`). -/
def lookup_level (tbl : List Nat) (freq : Nat) : Option Nat :=
  match tbl with
  | [] => none
  | f :: r => if f = freq then some 0 else (lookup_level r freq).map (· + 1)

/-- `devfreq_get_freq_level()`: loop `lev < max_state` comparing
`freq_table[lev]` with `freq`; `some lev` on match, `none` for `-EINVAL`. -/
def devfreq_get_freq_level (d : Devfreq) (freq : Nat) : Option Nat :=
  lookup_level (d.freq_table.getD []) freq

/-- One iteration of the `devfreq_set_freq_limits` loop body:
`if (min > freq_table[idx]) min = ...; if (max < freq_table[idx]) max = ...`. -/
def limitsStep (p : Nat × Nat) (f : Nat) : Nat × Nat :=
  (if p.1 > f then f else p.1, if p.2 < f then f else p.2)

/-- `devfreq_set_freq_limits()`: starting from `min = ~0, max = 0`, scan the
table (if its pointer is non-NULL) and store the results into
`min_freq` / `max_freq`. -/
def devfreq_set_freq_limits (d : Devfreq) : Devfreq :=
  match d.freq_table with
  | none => d
  | some tbl =>
    let mm := tbl.foldl limitsStep (ULONG_MAX, 0)
    { d with min_freq := mm.1, max_freq := mm.2 }

/-- `devfreq_update_status()`: record time in the previous level, and a
transition when the (resolved) level changes; stamp `last_stat_updated`
with the current time on every path.  Returns `0` or `-EINVAL`.
`now` plays the role of `jiffies`; the `unsigned long` subtraction
`cur_time - last_stat_updated` wraps modulo `2^64`. -/
def devfreq_update_status (d : Devfreq) (freq : Nat) (now : Nat) :
    Devfreq × Int :=
  let cur_time := now % W64
  if d.previous_freq = 0 then
    ({ d with last_stat_updated := cur_time }, 0)
  else
    match devfreq_get_freq_level d d.previous_freq with
    | none => ({ d with last_stat_updated := cur_time }, -22)
    | some prev_lev =>
      let delta := (W64 + cur_time - d.last_stat_updated % W64) % W64
      let tis := d.time_in_state.set prev_lev
        ((d.time_in_state.getD prev_lev 0 + delta) % W64)
      match devfreq_get_freq_level d freq with
      | none =>
        ({ d with time_in_state := tis, last_stat_updated := cur_time }, -22)
      | some lev =>
        if lev ≠ prev_lev then
          ({ d with
              time_in_state := tis,
              trans_table := d.trans_table.set (prev_lev * max_state d + lev)
                ((d.trans_table.getD (prev_lev * max_state d + lev) 0 + 1) % W32),
              total_trans := (d.total_trans + 1) % W32,
              last_stat_updated := cur_time }, 0)
        else
          ({ d with time_in_state := tis, last_stat_updated := cur_time }, 0)

/-- A sequence of `devfreq_update_status` calls, each supplying the target
frequency and the clock value at the call. -/
def runStatus : Devfreq → List (Nat × Nat) → Devfreq
  | d, [] => d
  | d, p :: r => runStatus (devfreq_update_status d p.1 p.2).1 r

/-- One delivery on the transition notifier chain
(`devfreq_notify_transition`), with the `devfreq_freqs` payload. -/
inductive NotifyEvent where
  | pre (old new_ : Nat)
  | post (old new_ : Nat)
deriving DecidableEq, Repr

/-- The bound-clamping step of `update_devfreq` (the two `if`s on
`min_freq` / `max_freq`).  `flags` starts as `0`; only the
`DEVFREQ_FLAG_LEAST_UPPER_BOUND` bit is ever touched, so the flag word is
modelled as that single bit: `false` = GLB (bit cleared), `true` = LUB
(bit set).  The min clamp clears the bit, the max clamp sets it. -/
def devfreq_clamp (min_freq max_freq freq : Nat) : Nat × Bool :=
  let s1 : Nat × Bool :=
    if min_freq ≠ 0 ∧ freq < min_freq then (min_freq, false) else (freq, false)
  if max_freq ≠ 0 ∧ s1.1 > max_freq then (max_freq, true) else s1

/-- Modelled from the spec: the clamp of section 4.5 step 2 in the spec's
own words — "if `minFreq != 0 && target < minFreq`, raise to `minFreq`,
select greatest-lower-bound rounding; if `maxFreq != 0 && target >
maxFreq`, lower to `maxFreq`, select least-upper-bound rounding; the max
clamp is evaluated second and its flag state overwrites the min clamp's."
`true` = least-upper-bound, `false` = greatest-lower-bound. -/
def specClamp (minFreq maxFreq target : Nat) : Nat × Bool :=
  let afterMin := if minFreq ≠ 0 ∧ target < minFreq then minFreq else target
  if maxFreq ≠ 0 ∧ afterMin > maxFreq then (maxFreq, true) else (afterMin, false)

/-- `update_devfreq()`: governor decision (or `ULONG_MAX` under
`max_boost`), clamp, pre-change notify, driver `target` callback
(which may adjust the frequency), post-change notify, stats, and
`previous_freq` update.  The injected behaviours are

* `getTarget` — the outcome of `governor->get_target_freq`,
* `getCur` — `some f` when `profile->get_cur_freq` exists and writes `f`,
  `none` when the callback pointer is NULL,
* `target` — `profile->target`, taking the frequency and the
  least-upper-bound flag and returning the adjusted frequency or an error.

Returns the state, the return code, and the notifier trace. -/
def update_devfreq (getTarget : Except Int Nat) (getCur : Option Nat)
    (target : Nat → Bool → Except Int Nat) (d : Devfreq) (now : Nat) :
    Devfreq × Int × List NotifyEvent :=
  match d.governor with
  | none => (d, -22, [])
  | some _ =>
    match (if d.max_boost then Except.ok ULONG_MAX else getTarget) with
    | .error err => (d, err, [])
    | .ok freq0 =>
      let fl := devfreq_clamp d.min_freq d.max_freq freq0
      let cur_freq :=
        match getCur with
        | some f => f
        | none => d.previous_freq
      let pre := NotifyEvent.pre cur_freq fl.1
      match target fl.1 fl.2 with
      | .error err => (d, err, [pre, NotifyEvent.post cur_freq cur_freq])
      | .ok freq1 =>
        let d1 :=
          if d.freq_table.isSome then (devfreq_update_status d freq1 now).1
          else d
        ({ d1 with previous_freq := freq1 }, 0,
          [pre, NotifyEvent.post cur_freq freq1])

/-- The governor white list at the top of `governor_store`. -/
def gov_whitelist : List String :=
  ["simple_ondemand", "cpufreq", "performance", "powersave", "msm-adreno-tz"]

/-- `find_devfreq_governor()`: registry lookup by name. -/
def find_devfreq_governor (registry : List Governor) (name : String) :
    Option Governor :=
  registry.find? (fun g => g.name == name)

/-- `governor_store()`: the sysfs `governor` write.  `parsed` is the
token produced by `sscanf` (`none` when `sscanf` does not return 1) and
`count` the byte count of the write.  `handler` gives each governor's
`event_handler` outcome (0 = success).  Returns the state, the return
value (`count` on success, a negative errno otherwise), and the list of
lifecycle events invoked in order. -/
def governor_store (registry : List Governor)
    (handler : Governor → GovEvent → Int) (df : Devfreq)
    (parsed : Option String) (count : Nat) :
    Devfreq × Int × List (Governor × GovEvent) :=
  match parsed with
  | none => (df, -22, [])
  | some str_governor =>
    if str_governor ∉ gov_whitelist then (df, -22, [])
    else
      match find_devfreq_governor registry str_governor with
      | none => (df, -19, [])
      | some governor =>
        if df.governor = some governor then (df, Int.ofNat count, [])
        else if (match df.governor with
                 | some g => g.immutable
                 | none => false) = true ∨ governor.immutable = true then
          (df, -22, [])
        else
          match df.governor with
          | some cur =>
            let stopRet := handler cur GovEvent.stop
            if stopRet ≠ 0 then
              (df, stopRet, [(cur, GovEvent.stop)])
            else
              let df1 := { df with governor := some governor,
                                   governor_name := governor.name }
              let startRet := handler governor GovEvent.start
              if startRet ≠ 0 then
                ({ df1 with governor := some cur,
                            governor_name := cur.name }, startRet,
                  [(cur, GovEvent.stop), (governor, GovEvent.start),
                   (cur, GovEvent.start)])
              else
                (df1, Int.ofNat count,
                  [(cur, GovEvent.stop), (governor, GovEvent.start)])
          | none =>
            let df1 := { df with governor := some governor,
                                 governor_name := governor.name }
            let startRet := handler governor GovEvent.start
            if startRet ≠ 0 then
              (df1, startRet, [(governor, GovEvent.start)])
            else
              (df1, Int.ofNat count, [(governor, GovEvent.start)])

/-- `min_freq_store()`: the sysfs `min_freq` write.  `parsed` is the
value produced by `sscanf` (`none` when `sscanf` does not return 1) and
`count` the byte count.  On a boost device the function returns `count`
before doing anything.  The `update_devfreq` return value is discarded
(the C code ignores it and returns `count`). -/
def min_freq_store (getTarget : Except Int Nat) (getCur : Option Nat)
    (target : Nat → Bool → Except Int Nat) (d : Devfreq)
    (parsed : Option Nat) (count : Nat) (now : Nat) :
    Devfreq × Int × List NotifyEvent :=
  if d.is_boost_device then (d, Int.ofNat count, [])
  else
    match parsed with
    | none => (d, -22, [])
    | some value =>
      let max := d.max_freq
      if value ≠ 0 ∧ max ≠ 0 ∧ value > max then (d, -22, [])
      else
        let d1 := { d with min_freq := value }
        let r := update_devfreq getTarget getCur target d1 now
        (r.1, Int.ofNat count, r.2.2)

/-! ## Helper lemmas -/

theorem lookup_level_lt_length {tbl : List Nat} {freq i : Nat}
    (h : lookup_level tbl freq = some i) : i < tbl.length := by
  induction tbl generalizing i with
  | nil => simp [lookup_level] at h
  | cons f r ih =>
    unfold lookup_level at h
    by_cases hf : f = freq
    · rw [if_pos hf] at h
      injection h with h
      simp only [List.length_cons]
      omega
    · rw [if_neg hf, Option.map_eq_some'] at h
      obtain ⟨j, hj, hji⟩ := h
      have := ih hj
      simp only [List.length_cons]
      omega

theorem getD_le_sum (l : List Nat) (i : Nat) : l.getD i 0 ≤ l.sum := by
  induction l generalizing i with
  | nil => simp
  | cons a r ih =>
    cases i with
    | zero => simp
    | succ j =>
      have := ih j
      simp only [List.getD_cons_succ, List.sum_cons]
      omega

theorem sum_set_add (l : List Nat) (i δ : Nat) (hi : i < l.length) :
    (l.set i (l.getD i 0 + δ)).sum = l.sum + δ := by
  induction l generalizing i with
  | nil => simp at hi
  | cons a r ih =>
    cases i with
    | zero => simp [List.set]; omega
    | succ j =>
      simp only [List.length_cons] at hi
      have := ih j (by omega)
      simp only [List.getD_cons_succ, List.set_cons_succ, List.sum_cons]
      omega

theorem clamp_eq_specClamp (minF maxF t : Nat) :
    devfreq_clamp minF maxF t = specClamp minF maxF t := by
  by_cases h1 : minF ≠ 0 ∧ t < minF <;>
    simp [devfreq_clamp, specClamp, h1]

/-! ## Claims -/

/-- C8: `devfreq_update_status` stamps `last_stat_updated` with the
current time on every call, including the early-exit and error paths
(uninitialized previous frequency, previous or new frequency absent from
the frequency table). -/
theorem devfreq_update_status_stamps_time (d : Devfreq) (freq now : Nat) :
    (devfreq_update_status d freq now).1.last_stat_updated = now % W64 := by
  unfold devfreq_update_status
  dsimp only
  split
  · rfl
  · split
    · rfl
    · split
      · rfl
      · split <;> rfl

/-- C10: a `devfreq_update_status` call made while `previous_freq = 0`
only stamps `last_stat_updated` and returns success: no time is
accumulated and no transition is counted, regardless of the frequency
table's contents (so even when `0` is a valid table entry). -/
theorem devfreq_update_status_uninitialized (d : Devfreq) (freq now : Nat)
    (h : d.previous_freq = 0) :
    devfreq_update_status d freq now =
      ({ d with last_stat_updated := now % W64 }, 0) := by
  unfold devfreq_update_status
  simp [h]

/-- Witness for C10: a concrete device whose table contains `0` as a
valid entry and whose `previous_freq` is `0`. -/
theorem devfreq_update_status_uninitialized_witness :
    devfreq_update_status
      { freq_table := some [0, 100], previous_freq := 0, min_freq := 0,
        max_freq := 0, time_in_state := [3, 4], trans_table := [0, 0, 0, 0],
        total_trans := 0, last_stat_updated := 2, max_boost := false,
        is_boost_device := false, governor := none, governor_name := "" }
      100 9 =
    ({ freq_table := some [0, 100], previous_freq := 0, min_freq := 0,
       max_freq := 0, time_in_state := [3, 4], trans_table := [0, 0, 0, 0],
       total_trans := 0, last_stat_updated := 9 % W64, max_boost := false,
       is_boost_device := false, governor := none, governor_name := "" }, 0) :=
  devfreq_update_status_uninitialized _ 100 9 (by rfl)

/-- C9: a `min_freq` sysfs write to a device flagged `is_boost_device`
returns the full byte count (success) but changes nothing: the state is
untouched, no notifier fires, and no `update_devfreq` effect occurs
(the result does not depend on any of the injected callbacks). -/
theorem min_freq_store_boost_noop (getTarget : Except Int Nat)
    (getCur : Option Nat) (target : Nat → Bool → Except Int Nat)
    (d : Devfreq) (parsed : Option Nat) (count now : Nat)
    (h : d.is_boost_device = true) :
    min_freq_store getTarget getCur target d parsed count now =
      (d, Int.ofNat count, []) := by
  unfold min_freq_store
  simp [h]

/-- Witness for C9: a concrete boost device and write. -/
theorem min_freq_store_boost_noop_witness :
    min_freq_store (Except.ok 250) none (fun f _ => Except.ok f)
      { freq_table := some [100, 200], previous_freq := 100, min_freq := 0,
        max_freq := 0, time_in_state := [0, 0], trans_table := [0, 0, 0, 0],
        total_trans := 0, last_stat_updated := 0, max_boost := false,
        is_boost_device := true, governor := some ⟨"simple_ondemand", false⟩,
        governor_name := "simple_ondemand" }
      (some 9999) 5 7 =
    ({ freq_table := some [100, 200], previous_freq := 100, min_freq := 0,
       max_freq := 0, time_in_state := [0, 0], trans_table := [0, 0, 0, 0],
       total_trans := 0, last_stat_updated := 0, max_boost := false,
       is_boost_device := true, governor := some ⟨"simple_ondemand", false⟩,
       governor_name := "simple_ondemand" }, Int.ofNat 5, []) :=
  min_freq_store_boost_noop _ _ _ _ _ 5 7 (by rfl)

/-- C1: with a governor attached and `max_boost` clear, `update_devfreq`
passes to the driver's `target` callback exactly the governor's requested
target clamped to the user bounds as the spec describes it
(`specClamp`): raised to a nonzero `min_freq` with the
greatest-lower-bound flag, then lowered to a nonzero `max_freq` with the
least-upper-bound flag, the max clamp evaluated second with its flag
state overwriting the min clamp's.  Replacing the callback by one that
ignores its arguments and uses the spec-clamped pair gives the identical
outcome, and the pre-change notification carries the clamped target. -/
theorem update_devfreq_clamps_target (d : Devfreq) (g : Governor)
    (t now : Nat) (getCur : Option Nat) (cb : Nat → Bool → Except Int Nat)
    (hgov : d.governor = some g) (hboost : d.max_boost = false) :
    update_devfreq (Except.ok t) getCur cb d now =
      update_devfreq (Except.ok t) getCur
        (fun _ _ => cb (specClamp d.min_freq d.max_freq t).1
          (specClamp d.min_freq d.max_freq t).2) d now
    ∧ (update_devfreq (Except.ok t) getCur cb d now).2.2.head? =
        some (NotifyEvent.pre (getCur.getD d.previous_freq)
          (specClamp d.min_freq d.max_freq t).1) := by
  rw [← clamp_eq_specClamp]
  have hb : (if d.max_boost then Except.ok ULONG_MAX else Except.ok t) =
      (Except.ok t : Except Int Nat) := by
    rw [hboost]
    simp
  unfold update_devfreq
  rw [hgov]
  dsimp only
  rw [hb]
  dsimp only
  refine ⟨rfl, ?_⟩
  cases getCur <;> (dsimp only [Option.getD]; split <;> rfl)

/-- Witness for C1: table-less device, governor-requested target 120
clamped by `min_freq = 150`, concrete driver callback. -/
theorem update_devfreq_clamps_target_witness :
    (update_devfreq (Except.ok 120) (some 100) (fun f _ => Except.ok f)
      { freq_table := some [100, 200], previous_freq := 100, min_freq := 150,
        max_freq := 0, time_in_state := [0, 0], trans_table := [0, 0, 0, 0],
        total_trans := 0, last_stat_updated := 0, max_boost := false,
        is_boost_device := false, governor := some ⟨"simple_ondemand", false⟩,
        governor_name := "simple_ondemand" } 7 =
    update_devfreq (Except.ok 120) (some 100)
      (fun _ _ => (fun f _ => Except.ok f) (specClamp 150 0 120).1
        (specClamp 150 0 120).2)
      { freq_table := some [100, 200], previous_freq := 100, min_freq := 150,
        max_freq := 0, time_in_state := [0, 0], trans_table := [0, 0, 0, 0],
        total_trans := 0, last_stat_updated := 0, max_boost := false,
        is_boost_device := false, governor := some ⟨"simple_ondemand", false⟩,
        governor_name := "simple_ondemand" } 7)
    ∧ (update_devfreq (Except.ok 120) (some 100) (fun f _ => Except.ok f)
      { freq_table := some [100, 200], previous_freq := 100, min_freq := 150,
        max_freq := 0, time_in_state := [0, 0], trans_table := [0, 0, 0, 0],
        total_trans := 0, last_stat_updated := 0, max_boost := false,
        is_boost_device := false, governor := some ⟨"simple_ondemand", false⟩,
        governor_name := "simple_ondemand" } 7).2.2.head? =
      some (NotifyEvent.pre ((some 100).getD 100) (specClamp 150 0 120).1) :=
  update_devfreq_clamps_target _ ⟨"simple_ondemand", false⟩ 120 7 _ _
    (by rfl) (by rfl)

/-- C2: when the driver's `target` callback fails, `update_devfreq`
fires the post-change notification with the new value equal to the old
(current) frequency, returns the callback's error, and leaves the whole
device state — in particular `previous_freq`, `time_in_state`,
`trans_table` and `total_trans` — unchanged. -/
theorem update_devfreq_target_error (d : Devfreq) (g : Governor)
    (getTarget : Except Int Nat) (getCur : Option Nat)
    (cb : Nat → Bool → Except Int Nat) (t now : Nat) (e : Int)
    (hgov : d.governor = some g)
    (hfreq : (if d.max_boost then Except.ok ULONG_MAX else getTarget) =
      Except.ok t)
    (herr : cb (devfreq_clamp d.min_freq d.max_freq t).1
      (devfreq_clamp d.min_freq d.max_freq t).2 = Except.error e) :
    update_devfreq getTarget getCur cb d now =
      (d, e,
        [NotifyEvent.pre (getCur.getD d.previous_freq)
          (devfreq_clamp d.min_freq d.max_freq t).1,
         NotifyEvent.post (getCur.getD d.previous_freq)
          (getCur.getD d.previous_freq)]) := by
  unfold update_devfreq
  rw [hgov]
  dsimp only
  rw [hfreq]
  dsimp only
  rw [herr]
  cases getCur <;> rfl

/-- Witness for C2: a concrete device whose driver callback rejects the
clamped target 150 with `-EIO`; the state is returned untouched and the
post-change event repeats the old frequency. -/
theorem update_devfreq_target_error_witness :
    update_devfreq (Except.ok 120) (some 111) (fun _ _ => Except.error (-5))
      { freq_table := some [100, 200], previous_freq := 100, min_freq := 150,
        max_freq := 0, time_in_state := [0, 0], trans_table := [0, 0, 0, 0],
        total_trans := 0, last_stat_updated := 0, max_boost := false,
        is_boost_device := false, governor := some ⟨"simple_ondemand", false⟩,
        governor_name := "simple_ondemand" } 7 =
    ({ freq_table := some [100, 200], previous_freq := 100, min_freq := 150,
       max_freq := 0, time_in_state := [0, 0], trans_table := [0, 0, 0, 0],
       total_trans := 0, last_stat_updated := 0, max_boost := false,
       is_boost_device := false, governor := some ⟨"simple_ondemand", false⟩,
       governor_name := "simple_ondemand" }, -5,
     [NotifyEvent.pre ((some 111).getD 100) (devfreq_clamp 150 0 120).1,
      NotifyEvent.post ((some 111).getD 100) ((some 111).getD 100)]) :=
  update_devfreq_target_error _ ⟨"simple_ondemand", false⟩ _ _ _ 120 7 (-5)
    (by rfl) (by rfl) (by rfl)

theorem le_ULONG_MAX_of_lt_W64 {x : Nat} (h : x < W64) : x ≤ ULONG_MAX := by
  have h0 : 0 < W64 := by norm_num [W64]
  unfold ULONG_MAX
  omega

theorem foldl_limits (tbl : List Nat) : ∀ a b : Nat,
    (tbl.foldl limitsStep (a, b)).1 ≤ a ∧
    (∀ x ∈ tbl, (tbl.foldl limitsStep (a, b)).1 ≤ x) ∧
    ((tbl.foldl limitsStep (a, b)).1 = a ∨
      (tbl.foldl limitsStep (a, b)).1 ∈ tbl) ∧
    b ≤ (tbl.foldl limitsStep (a, b)).2 ∧
    (∀ x ∈ tbl, x ≤ (tbl.foldl limitsStep (a, b)).2) ∧
    ((tbl.foldl limitsStep (a, b)).2 = b ∨
      (tbl.foldl limitsStep (a, b)).2 ∈ tbl) := by
  induction tbl with
  | nil => intro a b; simp
  | cons f r ih =>
    intro a b
    simp only [List.foldl_cons]
    obtain ⟨h1, h2, h3, h4, h5, h6⟩ :=
      ih (limitsStep (a, b) f).1 (limitsStep (a, b) f).2
    rw [Prod.mk.eta] at h1 h2 h3 h4 h5 h6
    have ha1 : (limitsStep (a, b) f).1 ≤ a := by
      unfold limitsStep; dsimp only; split <;> omega
    have ha2 : (limitsStep (a, b) f).1 ≤ f := by
      unfold limitsStep; dsimp only; split <;> omega
    have ha3 : (limitsStep (a, b) f).1 = a ∨ (limitsStep (a, b) f).1 = f := by
      unfold limitsStep; dsimp only; split
      · right; rfl
      · left; rfl
    have hb1 : b ≤ (limitsStep (a, b) f).2 := by
      unfold limitsStep; dsimp only; split <;> omega
    have hb2 : f ≤ (limitsStep (a, b) f).2 := by
      unfold limitsStep; dsimp only; split <;> omega
    have hb3 : (limitsStep (a, b) f).2 = b ∨ (limitsStep (a, b) f).2 = f := by
      unfold limitsStep; dsimp only; split
      · right; rfl
      · left; rfl
    refine ⟨le_trans h1 ha1, ?_, ?_, le_trans hb1 h4, ?_, ?_⟩
    · intro x hx
      rcases List.mem_cons.mp hx with rfl | hx
      · exact le_trans h1 ha2
      · exact h2 x hx
    · rcases h3 with hEq | hMem
      · rcases ha3 with hA | hF
        · exact Or.inl (hEq.trans hA)
        · exact Or.inr (List.mem_cons.mpr (Or.inl (hEq.trans hF)))
      · exact Or.inr (List.mem_cons.mpr (Or.inr hMem))
    · intro x hx
      rcases List.mem_cons.mp hx with rfl | hx
      · exact le_trans hb2 h4
      · exact h5 x hx
    · rcases h6 with hEq | hMem
      · rcases hb3 with hB | hF
        · exact Or.inl (hEq.trans hB)
        · exact Or.inr (List.mem_cons.mpr (Or.inl (hEq.trans hF)))
      · exact Or.inr (List.mem_cons.mpr (Or.inr hMem))

/-- C7 (amended): after `devfreq_set_freq_limits` on a device whose
frequency table is present and non-empty (all entries being `unsigned
long` values), `min_freq` is the least table entry and `max_freq` the
greatest (stated as: each bound is a table entry bounding all entries).
This is the claim's first half; the second half — "an empty table leaves
both bounds zero" — holds only for an absent (NULL) table pointer, see
the counterexample for a present zero-length table. -/
theorem devfreq_set_freq_limits_bounds (d : Devfreq) (tbl : List Nat)
    (htbl : d.freq_table = some tbl) (hne : tbl ≠ [])
    (hub : ∀ x ∈ tbl, x < W64) :
    ((devfreq_set_freq_limits d).min_freq ∈ tbl ∧
      ∀ x ∈ tbl, (devfreq_set_freq_limits d).min_freq ≤ x) ∧
    ((devfreq_set_freq_limits d).max_freq ∈ tbl ∧
      ∀ x ∈ tbl, x ≤ (devfreq_set_freq_limits d).max_freq) := by
  unfold devfreq_set_freq_limits
  rw [htbl]
  dsimp only
  obtain ⟨h1, h2, h3, h4, h5, h6⟩ := foldl_limits tbl ULONG_MAX 0
  obtain ⟨x0, hx0⟩ := List.exists_mem_of_ne_nil tbl hne
  constructor
  · refine ⟨?_, h2⟩
    rcases h3 with hEq | hMem
    · have hle := h2 x0 hx0
      have hxu := le_ULONG_MAX_of_lt_W64 (hub x0 hx0)
      have : x0 = (tbl.foldl limitsStep (ULONG_MAX, 0)).1 := by omega
      rwa [← this]
    · exact hMem
  · refine ⟨?_, h5⟩
    rcases h6 with hEq | hMem
    · have hle := h5 x0 hx0
      have : x0 = (tbl.foldl limitsStep (ULONG_MAX, 0)).2 := by omega
      rwa [← this]
    · exact hMem

/-- Witness for C7: table `[300, 100, 200]` gives `min_freq = 100`,
`max_freq = 300` (stated via the bounding characterization). -/
theorem devfreq_set_freq_limits_bounds_witness :
    ((devfreq_set_freq_limits
      { freq_table := some [300, 100, 200], previous_freq := 0, min_freq := 0,
        max_freq := 0, time_in_state := [0, 0, 0],
        trans_table := [0, 0, 0, 0, 0, 0, 0, 0, 0], total_trans := 0,
        last_stat_updated := 0, max_boost := false, is_boost_device := false,
        governor := none, governor_name := "" }).min_freq ∈ [300, 100, 200] ∧
      ∀ x ∈ [300, 100, 200],
        (devfreq_set_freq_limits
          { freq_table := some [300, 100, 200], previous_freq := 0,
            min_freq := 0, max_freq := 0, time_in_state := [0, 0, 0],
            trans_table := [0, 0, 0, 0, 0, 0, 0, 0, 0], total_trans := 0,
            last_stat_updated := 0, max_boost := false,
            is_boost_device := false, governor := none,
            governor_name := "" }).min_freq ≤ x) ∧
    ((devfreq_set_freq_limits
      { freq_table := some [300, 100, 200], previous_freq := 0, min_freq := 0,
        max_freq := 0, time_in_state := [0, 0, 0],
        trans_table := [0, 0, 0, 0, 0, 0, 0, 0, 0], total_trans := 0,
        last_stat_updated := 0, max_boost := false, is_boost_device := false,
        governor := none, governor_name := "" }).max_freq ∈ [300, 100, 200] ∧
      ∀ x ∈ [300, 100, 200],
        x ≤ (devfreq_set_freq_limits
          { freq_table := some [300, 100, 200], previous_freq := 0,
            min_freq := 0, max_freq := 0, time_in_state := [0, 0, 0],
            trans_table := [0, 0, 0, 0, 0, 0, 0, 0, 0], total_trans := 0,
            last_stat_updated := 0, max_boost := false,
            is_boost_device := false, governor := none,
            governor_name := "" }).max_freq) :=
  devfreq_set_freq_limits_bounds _ [300, 100, 200] (by rfl)
    (by simp) (by decide)

/-- Counterexample for C7 as stated: a device whose frequency table is
present but has zero entries (`max_state == 0`, as left behind by the
`devfreq_set_freq_table` failure path) does not keep its zero bounds:
the loop never runs, so `min_freq` becomes `~0` (`ULONG_MAX`) and
`max_freq` becomes `0`. -/
theorem devfreq_set_freq_limits_empty_counterexample :
    (devfreq_set_freq_limits
      { freq_table := some [], previous_freq := 0, min_freq := 0,
        max_freq := 0, time_in_state := [], trans_table := [],
        total_trans := 0, last_stat_updated := 0, max_boost := false,
        is_boost_device := false, governor := none,
        governor_name := "" }).min_freq ≠ 0 ∧
    (devfreq_set_freq_limits
      { freq_table := some [], previous_freq := 0, min_freq := 0,
        max_freq := 0, time_in_state := [], trans_table := [],
        total_trans := 0, last_stat_updated := 0, max_boost := false,
        is_boost_device := false, governor := none,
        governor_name := "" }).min_freq = ULONG_MAX := by
  constructor
  · decide
  · rfl

/-- C5 (amended): in a governor switch through the sysfs `governor`
write (name whitelisted and registered, different from the attached
governor, neither immutable), a failing `DEVFREQ_GOV_STOP` of the
current governor is logged *and aborts the switch*: the STOP error is
returned, the device keeps its current governor, and the incoming
governor's `DEVFREQ_GOV_START` is never invoked. -/
theorem governor_store_stop_failure_aborts (registry : List Governor)
    (handler : Governor → GovEvent → Int) (df : Devfreq) (str : String)
    (count : Nat) (cur gnew : Governor) (e : Int)
    (hwl : str ∈ gov_whitelist)
    (hfind : find_devfreq_governor registry str = some gnew)
    (hcur : df.governor = some cur) (hne : cur ≠ gnew)
    (himm1 : cur.immutable = false) (himm2 : gnew.immutable = false)
    (hstop : handler cur GovEvent.stop = e) (hne0 : e ≠ 0) :
    governor_store registry handler df (some str) count =
      (df, e, [(cur, GovEvent.stop)]) := by
  unfold governor_store
  dsimp only
  rw [if_neg (not_not_intro hwl), hfind]
  dsimp only
  rw [hcur]
  rw [if_neg (by simpa using hne)]
  rw [if_neg (by simp [himm1, himm2])]
  dsimp only
  rw [hstop, if_pos hne0]

/-- Witness for C5's amended claim: concrete registry, device attached
to `simple_ondemand` whose STOP handler fails with `-EIO`, incoming
`performance`. -/
theorem governor_store_stop_failure_aborts_witness :
    governor_store [⟨"simple_ondemand", false⟩, ⟨"performance", false⟩]
      (fun g ev =>
        if g.name = "simple_ondemand" ∧ ev = GovEvent.stop then -5 else 0)
      { freq_table := some [100, 200], previous_freq := 100, min_freq := 0,
        max_freq := 0, time_in_state := [0, 0], trans_table := [0, 0, 0, 0],
        total_trans := 0, last_stat_updated := 0, max_boost := false,
        is_boost_device := false, governor := some ⟨"simple_ondemand", false⟩,
        governor_name := "simple_ondemand" }
      (some "performance") 12 =
    ({ freq_table := some [100, 200], previous_freq := 100, min_freq := 0,
       max_freq := 0, time_in_state := [0, 0], trans_table := [0, 0, 0, 0],
       total_trans := 0, last_stat_updated := 0, max_boost := false,
       is_boost_device := false, governor := some ⟨"simple_ondemand", false⟩,
       governor_name := "simple_ondemand" }, -5,
     [(⟨"simple_ondemand", false⟩, GovEvent.stop)]) :=
  governor_store_stop_failure_aborts _ _ _ "performance" 12
    ⟨"simple_ondemand", false⟩ ⟨"performance", false⟩ (-5)
    (by decide) (by decide) (by rfl) (by decide) (by rfl) (by rfl)
    (by rfl) (by decide)

/-- Counterexample for C5 as stated: with the device attached to
`simple_ondemand` (STOP failing with `-EIO`) and `performance`
registered and whitelisted, the write does *not* attach the incoming
governor and never invokes its START: the switch is aborted with the
STOP error. -/
theorem governor_store_stop_failure_counterexample :
    (governor_store [⟨"simple_ondemand", false⟩, ⟨"performance", false⟩]
      (fun g ev =>
        if g.name = "simple_ondemand" ∧ ev = GovEvent.stop then -5 else 0)
      { freq_table := some [100, 200], previous_freq := 100, min_freq := 0,
        max_freq := 0, time_in_state := [0, 0], trans_table := [0, 0, 0, 0],
        total_trans := 0, last_stat_updated := 0, max_boost := false,
        is_boost_device := false, governor := some ⟨"simple_ondemand", false⟩,
        governor_name := "simple_ondemand" }
      (some "performance") 12).1.governor ≠ some ⟨"performance", false⟩ ∧
    (⟨"performance", false⟩, GovEvent.start) ∉
      (governor_store [⟨"simple_ondemand", false⟩, ⟨"performance", false⟩]
        (fun g ev =>
          if g.name = "simple_ondemand" ∧ ev = GovEvent.stop then -5 else 0)
        { freq_table := some [100, 200], previous_freq := 100, min_freq := 0,
          max_freq := 0, time_in_state := [0, 0], trans_table := [0, 0, 0, 0],
          total_trans := 0, last_stat_updated := 0, max_boost := false,
          is_boost_device := false,
          governor := some ⟨"simple_ondemand", false⟩,
          governor_name := "simple_ondemand" }
        (some "performance") 12).2.2 := by
  decide

/-- C6 (amended): a sysfs `governor` write naming the governor already
attached to the device is a no-op returning success (the full byte
count) and invokes neither STOP nor START — *provided* the name passes
the governor white list and is registered.  (A write naming the
attached governor with a non-whitelisted name is instead rejected with
`-EINVAL`; see the counterexample.) -/
theorem governor_store_same_governor_noop (registry : List Governor)
    (handler : Governor → GovEvent → Int) (df : Devfreq) (str : String)
    (count : Nat) (g : Governor)
    (hwl : str ∈ gov_whitelist)
    (hfind : find_devfreq_governor registry str = some g)
    (hsame : df.governor = some g) :
    governor_store registry handler df (some str) count =
      (df, Int.ofNat count, []) := by
  unfold governor_store
  dsimp only
  rw [if_neg (not_not_intro hwl), hfind]
  dsimp only
  rw [hsame, if_pos rfl]

/-- Witness for C6's amended claim: writing `performance` to a device
already governed by `performance`. -/
theorem governor_store_same_governor_noop_witness :
    governor_store [⟨"performance", false⟩]
      (fun _ _ => 0)
      { freq_table := some [100, 200], previous_freq := 100, min_freq := 0,
        max_freq := 0, time_in_state := [0, 0], trans_table := [0, 0, 0, 0],
        total_trans := 0, last_stat_updated := 0, max_boost := false,
        is_boost_device := false, governor := some ⟨"performance", false⟩,
        governor_name := "performance" }
      (some "performance") 11 =
    ({ freq_table := some [100, 200], previous_freq := 100, min_freq := 0,
       max_freq := 0, time_in_state := [0, 0], trans_table := [0, 0, 0, 0],
       total_trans := 0, last_stat_updated := 0, max_boost := false,
       is_boost_device := false, governor := some ⟨"performance", false⟩,
       governor_name := "performance" }, Int.ofNat 11, []) :=
  governor_store_same_governor_noop _ _ _ "performance" 11
    ⟨"performance", false⟩ (by decide) (by rfl) (by rfl)

/-- Counterexample for C6 as stated: a device attached to the registered
`userspace` governor.  Writing `userspace` — the very name of the
attached governor — is rejected by the white list with `-EINVAL`
instead of succeeding with the byte count. -/
theorem governor_store_same_governor_counterexample :
    (governor_store [⟨"userspace", false⟩] (fun _ _ => 0)
      { freq_table := some [100, 200], previous_freq := 100, min_freq := 0,
        max_freq := 0, time_in_state := [0, 0], trans_table := [0, 0, 0, 0],
        total_trans := 0, last_stat_updated := 0, max_boost := false,
        is_boost_device := false, governor := some ⟨"userspace", false⟩,
        governor_name := "userspace" }
      (some "userspace") 10).2.1 ≠ Int.ofNat 10 ∧
    (governor_store [⟨"userspace", false⟩] (fun _ _ => 0)
      { freq_table := some [100, 200], previous_freq := 100, min_freq := 0,
        max_freq := 0, time_in_state := [0, 0], trans_table := [0, 0, 0, 0],
        total_trans := 0, last_stat_updated := 0, max_boost := false,
        is_boost_device := false, governor := some ⟨"userspace", false⟩,
        governor_name := "userspace" }
      (some "userspace") 10).2.1 = -22 := by
  decide

/-- Monotone, in-range clock values along a call sequence, starting from
a given `last_stat_updated`. -/
def TimesMono : Nat → List (Nat × Nat) → Prop
  | _, [] => True
  | last, p :: r => last ≤ p.2 ∧ p.2 < W64 ∧ TimesMono p.2 r

theorem status_step_time (d : Devfreq) (f t pl : Nat)
    (hprev : d.previous_freq ≠ 0)
    (hpl : devfreq_get_freq_level d d.previous_freq = some pl)
    (hlen : d.time_in_state.length = max_state d)
    (hlast : d.last_stat_updated < W64)
    (hle : d.last_stat_updated ≤ t) (ht : t < W64)
    (hnw : d.time_in_state.sum + t < W64 + d.last_stat_updated) :
    (devfreq_update_status d f t).1.time_in_state.sum =
      d.time_in_state.sum + (t - d.last_stat_updated) ∧
    (devfreq_update_status d f t).1.last_stat_updated = t ∧
    (devfreq_update_status d f t).1.previous_freq = d.previous_freq ∧
    (devfreq_update_status d f t).1.freq_table = d.freq_table ∧
    (devfreq_update_status d f t).1.time_in_state.length =
      d.time_in_state.length := by
  have hδ : (W64 + t % W64 - d.last_stat_updated % W64) % W64 =
      t - d.last_stat_updated := by
    rw [Nat.mod_eq_of_lt ht, Nat.mod_eq_of_lt hlast]
    have h1 : W64 + t - d.last_stat_updated =
        W64 + (t - d.last_stat_updated) := by omega
    rw [h1, Nat.add_mod_left]
    exact Nat.mod_eq_of_lt (by omega)
  have hplen : pl < d.time_in_state.length := by
    rw [hlen]
    unfold devfreq_get_freq_level at hpl
    exact lookup_level_lt_length hpl
  have hentry : (d.time_in_state.getD pl 0 + (t - d.last_stat_updated)) % W64 =
      d.time_in_state.getD pl 0 + (t - d.last_stat_updated) := by
    have := getD_le_sum d.time_in_state pl
    exact Nat.mod_eq_of_lt (by omega)
  have hsum : (d.time_in_state.set pl
      ((d.time_in_state.getD pl 0 +
        (W64 + t % W64 - d.last_stat_updated % W64) % W64) % W64)).sum =
      d.time_in_state.sum + (t - d.last_stat_updated) := by
    rw [hδ, hentry]
    exact sum_set_add _ _ _ hplen
  have hcur : t % W64 = t := Nat.mod_eq_of_lt ht
  unfold devfreq_update_status
  rw [if_neg hprev, hpl]
  dsimp only
  cases hlv : devfreq_get_freq_level d f with
  | none =>
    dsimp only
    exact ⟨hsum, hcur, rfl, rfl, by rw [List.length_set]⟩
  | some lv =>
    dsimp only
    by_cases hd : lv ≠ pl
    · rw [if_pos hd]
      exact ⟨hsum, hcur, rfl, rfl, by rw [List.length_set]⟩
    · rw [if_neg hd]
      exact ⟨hsum, hcur, rfl, rfl, by rw [List.length_set]⟩

/-- C3 (amended): over any sequence of `devfreq_update_status` calls in
which the device's previous frequency is nonzero and resolves in the
frequency table, with monotone in-range clock values and no 64-bit
overflow of the accumulated time, the sum of `time_in_state` grows by
exactly the final minus the initial `last_stat_updated`.  (When the
previous frequency is zero or absent from the table the elapsed
interval is dropped while the timestamp still advances, breaking the
equality — see the counterexample.) -/
theorem devfreq_update_status_time_conservation (d : Devfreq)
    (ℓ : List (Nat × Nat)) (pl : Nat)
    (hprev : d.previous_freq ≠ 0)
    (hpl : devfreq_get_freq_level d d.previous_freq = some pl)
    (hlen : d.time_in_state.length = max_state d)
    (hlast : d.last_stat_updated < W64)
    (hmono : TimesMono d.last_stat_updated ℓ)
    (hnw : ∀ p ∈ ℓ, d.time_in_state.sum + p.2 < W64 + d.last_stat_updated) :
    (runStatus d ℓ).time_in_state.sum + d.last_stat_updated =
      d.time_in_state.sum + (runStatus d ℓ).last_stat_updated := by
  induction ℓ generalizing d with
  | nil => rfl
  | cons p r ih =>
    obtain ⟨hle, ht, hmono'⟩ := hmono
    obtain ⟨hs, hl, hp, hft, hlen'⟩ :=
      status_step_time d p.1 p.2 pl hprev hpl hlen hlast hle ht
        (hnw p (List.mem_cons_self p r))
    have hmax : max_state (devfreq_update_status d p.1 p.2).1 = max_state d := by
      unfold max_state
      rw [hft]
    have hgl : devfreq_get_freq_level (devfreq_update_status d p.1 p.2).1
        ((devfreq_update_status d p.1 p.2).1.previous_freq) = some pl := by
      unfold devfreq_get_freq_level
      rw [hft, hp]
      exact hpl
    have ih' := ih (devfreq_update_status d p.1 p.2).1
      (by rw [hp]; exact hprev) hgl
      (by rw [hlen', hlen, hmax])
      (by rw [hl]; exact ht)
      (by rw [hl]; exact hmono')
      (by
        intro q hq
        rw [hs, hl]
        have := hnw q (List.mem_cons_of_mem p hq)
        omega)
    rw [show runStatus d (p :: r) =
      runStatus (devfreq_update_status d p.1 p.2).1 r from rfl]
    omega

/-- Witness for C3's amended claim: table `[100, 200]`, previous
frequency `100`, calls at times 4 and 9; nine time units are accounted
to level 0 and the timestamp advances from 0 to 9. -/
theorem devfreq_update_status_time_conservation_witness :
    (runStatus
      { freq_table := some [100, 200], previous_freq := 100, min_freq := 0,
        max_freq := 0, time_in_state := [0, 0], trans_table := [0, 0, 0, 0],
        total_trans := 0, last_stat_updated := 0, max_boost := false,
        is_boost_device := false, governor := none, governor_name := "" }
      [(200, 4), (100, 9)]).time_in_state.sum + 0 =
    [0, 0].sum +
      (runStatus
        { freq_table := some [100, 200], previous_freq := 100, min_freq := 0,
          max_freq := 0, time_in_state := [0, 0], trans_table := [0, 0, 0, 0],
          total_trans := 0, last_stat_updated := 0, max_boost := false,
          is_boost_device := false, governor := none,
          governor_name := "" }
        [(200, 4), (100, 9)]).last_stat_updated :=
  devfreq_update_status_time_conservation _ [(200, 4), (100, 9)] 0
    (by decide) (by rfl) (by rfl) (by norm_num [W64])
    (by refine ⟨by norm_num, by norm_num [W64], by norm_num, by norm_num [W64], trivial⟩)
    (by decide)

/-- Counterexample for C3 as stated: a single-call sequence on a device
whose (supplied) previous frequency `50` is absent from the table
`[100]`.  The timestamp advances from 0 to 10 but no time is
accumulated, so `sum(time_in_state)` differs from final − initial
`last_stat_updated`. -/
theorem devfreq_update_status_time_counterexample :
    (runStatus
      { freq_table := some [100], previous_freq := 50, min_freq := 0,
        max_freq := 0, time_in_state := [0], trans_table := [0],
        total_trans := 0, last_stat_updated := 0, max_boost := false,
        is_boost_device := false, governor := none, governor_name := "" }
      [(100, 10)]).time_in_state.sum ≠
    (runStatus
      { freq_table := some [100], previous_freq := 50, min_freq := 0,
        max_freq := 0, time_in_state := [0], trans_table := [0],
        total_trans := 0, last_stat_updated := 0, max_boost := false,
        is_boost_device := false, governor := none, governor_name := "" }
      [(100, 10)]).last_stat_updated -
      (0 : Nat) := by
  decide

theorem status_step_trans (d : Devfreq) (f t : Nat)
    (hsum : d.trans_table.sum = d.total_trans)
    (hlen : d.trans_table.length = max_state d * max_state d)
    (hlt : d.total_trans + 1 < W32) :
    (devfreq_update_status d f t).1.trans_table.sum =
      (devfreq_update_status d f t).1.total_trans ∧
    (devfreq_update_status d f t).1.total_trans ≤ d.total_trans + 1 ∧
    (devfreq_update_status d f t).1.trans_table.length =
      d.trans_table.length ∧
    (devfreq_update_status d f t).1.freq_table = d.freq_table := by
  unfold devfreq_update_status
  dsimp only
  by_cases h0 : d.previous_freq = 0
  · rw [if_pos h0]
    exact ⟨hsum, Nat.le_succ _, rfl, rfl⟩
  · rw [if_neg h0]
    cases hpl : devfreq_get_freq_level d d.previous_freq with
    | none =>
      dsimp only
      exact ⟨hsum, Nat.le_succ _, rfl, rfl⟩
    | some pl =>
      dsimp only
      cases hlv : devfreq_get_freq_level d f with
      | none =>
        dsimp only
        exact ⟨hsum, Nat.le_succ _, rfl, rfl⟩
      | some lv =>
        dsimp only
        by_cases hd : lv ≠ pl
        · rw [if_pos hd]
          have hpl' : pl < max_state d := by
            unfold devfreq_get_freq_level at hpl
            exact lookup_level_lt_length hpl
          have hlv' : lv < max_state d := by
            unfold devfreq_get_freq_level at hlv
            exact lookup_level_lt_length hlv
          have hidx : pl * max_state d + lv < d.trans_table.length := by
            rw [hlen]
            calc pl * max_state d + lv
                < pl * max_state d + max_state d := by omega
              _ = (pl + 1) * max_state d := by ring
              _ ≤ max_state d * max_state d :=
                  Nat.mul_le_mul_right _ (by omega)
          have hentry : d.trans_table.getD (pl * max_state d + lv) 0 + 1 <
              W32 := by
            have := getD_le_sum d.trans_table (pl * max_state d + lv)
            omega
          have hmod : (d.trans_table.getD (pl * max_state d + lv) 0 + 1) %
              W32 = d.trans_table.getD (pl * max_state d + lv) 0 + 1 :=
            Nat.mod_eq_of_lt hentry
          have htot : (d.total_trans + 1) % W32 = d.total_trans + 1 :=
            Nat.mod_eq_of_lt hlt
          refine ⟨?_, ?_, ?_, rfl⟩
          · dsimp only
            rw [hmod, htot, sum_set_add _ _ _ hidx, hsum]
          · dsimp only
            rw [htot]
          · dsimp only
            rw [List.length_set]
        · rw [if_neg hd]
          exact ⟨hsum, Nat.le_succ _, rfl, rfl⟩

theorem runStatus_trans_inv (ℓ : List (Nat × Nat)) : ∀ d : Devfreq,
    d.trans_table.sum = d.total_trans →
    d.trans_table.length = max_state d * max_state d →
    d.total_trans + ℓ.length < W32 →
    (runStatus d ℓ).trans_table.sum = (runStatus d ℓ).total_trans := by
  induction ℓ with
  | nil => intro d hsum _ _; exact hsum
  | cons p r ih =>
    intro d hsum hlen hlt
    obtain ⟨hs, hmono, hl, hft⟩ := status_step_trans d p.1 p.2 hsum hlen
      (by simp only [List.length_cons] at hlt; omega)
    have hmax : max_state (devfreq_update_status d p.1 p.2).1 = max_state d := by
      unfold max_state
      rw [hft]
    rw [show runStatus d (p :: r) =
      runStatus (devfreq_update_status d p.1 p.2).1 r from rfl]
    exact ih _ hs (by rw [hl, hlen, hmax])
      (by simp only [List.length_cons] at hlt; omega)

/-- C4: over any sequence of `devfreq_update_status` calls on a device
whose transition counters start at zero (fewer than `2^32` calls, so the
32-bit counters cannot wrap), the sum of all `trans_table` entries
equals `total_trans`; moreover a call changes `total_trans` only when
both the previous and the new frequency resolve to table levels and
those levels differ. -/
theorem devfreq_update_status_trans_conservation (d : Devfreq)
    (ℓ : List (Nat × Nat))
    (hzt : d.trans_table = List.replicate (max_state d * max_state d) 0)
    (hz : d.total_trans = 0)
    (hl : ℓ.length < W32) :
    (runStatus d ℓ).trans_table.sum = (runStatus d ℓ).total_trans ∧
    ∀ (d' : Devfreq) (f now : Nat),
      (devfreq_update_status d' f now).1.total_trans ≠ d'.total_trans →
      d'.previous_freq ≠ 0 ∧
      ∃ pl lv, devfreq_get_freq_level d' d'.previous_freq = some pl ∧
        devfreq_get_freq_level d' f = some lv ∧ lv ≠ pl := by
  constructor
  · exact runStatus_trans_inv ℓ d (by rw [hzt, hz]; simp)
      (by rw [hzt, List.length_replicate]) (by omega)
  · intro d' f now hne
    unfold devfreq_update_status at hne
    dsimp only at hne
    by_cases h0 : d'.previous_freq = 0
    · rw [if_pos h0] at hne
      exact absurd rfl hne
    · refine ⟨h0, ?_⟩
      rw [if_neg h0] at hne
      cases hpl : devfreq_get_freq_level d' d'.previous_freq with
      | none =>
        rw [hpl] at hne
        exact absurd rfl hne
      | some pl =>
        rw [hpl] at hne
        dsimp only at hne
        cases hlv : devfreq_get_freq_level d' f with
        | none =>
          rw [hlv] at hne
          exact absurd rfl hne
        | some lv =>
          rw [hlv] at hne
          dsimp only at hne
          by_cases hd : lv ≠ pl
          · exact ⟨pl, lv, rfl, rfl, hd⟩
          · rw [if_neg hd] at hne
            exact absurd rfl hne

/-- Witness for C4: table `[100, 200]`, counters starting at zero, two
calls producing one 0→1 transition; the matrix sums to `total_trans`. -/
theorem devfreq_update_status_trans_conservation_witness :
    ((runStatus
      { freq_table := some [100, 200], previous_freq := 100, min_freq := 0,
        max_freq := 0, time_in_state := [0, 0], trans_table := [0, 0, 0, 0],
        total_trans := 0, last_stat_updated := 0, max_boost := false,
        is_boost_device := false, governor := none, governor_name := "" }
      [(200, 4), (100, 9)]).trans_table.sum =
    (runStatus
      { freq_table := some [100, 200], previous_freq := 100, min_freq := 0,
        max_freq := 0, time_in_state := [0, 0], trans_table := [0, 0, 0, 0],
        total_trans := 0, last_stat_updated := 0, max_boost := false,
        is_boost_device := false, governor := none, governor_name := "" }
      [(200, 4), (100, 9)]).total_trans) ∧
    ∀ (d' : Devfreq) (f now : Nat),
      (devfreq_update_status d' f now).1.total_trans ≠ d'.total_trans →
      d'.previous_freq ≠ 0 ∧
      ∃ pl lv, devfreq_get_freq_level d' d'.previous_freq = some pl ∧
        devfreq_get_freq_level d' f = some lv ∧ lv ≠ pl :=
  devfreq_update_status_trans_conservation _ [(200, 4), (100, 9)]
    (by rfl) (by rfl) (by norm_num [W32])

end DevfreqModel
